import Mathlib

/-!
Shallow embedding of the grant/permission reconciliation engine of a
terraform provider for a wide-column database, together with proofs about
its statement builder (internal/qb/qb.go), its grantable-resource data
types and its create/read/delete grant operations
(internal/provider/{provider,table_grant_resource,keyspace_grant_resource}.go).
-/

namespace Qb

/-- Go `type CQL string` (internal/qb/qb.go). -/
abbrev CQL := String

/-- `qb.Builder`: an accumulated statement plus the `onceMap` key set.
The Go `strings.Builder` is an append-only string; the Go
`map[string]struct{}` is modelled by the list of keys inserted so far. -/
structure Builder where
  stmt : String
  onceMap : List String

/-- The zero value `var b qb.Builder`. -/
def Builder.empty : Builder := ⟨"", []⟩

/-- `Builder.Append`: writes each snippet to the statement in order. -/
def Builder.append (b : Builder) (a : List CQL) : Builder :=
  { b with stmt := a.foldl (fun s c => s ++ c) b.stmt }

/-- `Builder.Once(key, text, alt)`: if `key` was seen before, append `alt`;
otherwise record `key` and append `text`. -/
def Builder.once (b : Builder) (key : String) (text alt : CQL) : Builder :=
  if key ∈ b.onceMap then
    b.append [alt]
  else
    Builder.append { b with onceMap := key :: b.onceMap } [text]

/-- `fmt.Sprintf` restricted to `%s` placeholders, as used by
`Builder.Appendf` (its documented contract: "format should only contain %s
as placeholders"; every call site passes exactly as many arguments as
placeholders, so behaviour on a placeholder/argument mismatch is never
exercised). -/
def sprintfS : List Char → List CQL → List Char
  | [], _ => []
  | '%' :: 's' :: rest, a :: args =>
    match rest, args with
    | [], [] => a.data
    | _, _ => a.data ++ sprintfS rest args
  | c :: rest, args => c :: sprintfS rest args

/-- `Builder.Appendf(format, a...)`: sprintf-style interpolation of CQL
snippets into the format, appended to the statement. -/
def Builder.appendf (b : Builder) (format : String) (a : List CQL) : Builder :=
  { b with stmt := b.stmt ++ String.mk (sprintfS format.data a) }

/-- `Builder.String()`: the accumulated statement text. -/
def Builder.string (b : Builder) : String := b.stmt

/-- Character-level form of `strings.ReplaceAll s (String.singleton q)
(String.mk [q, q])`: with a one-character pattern, ReplaceAll replaces each
occurrence of that character independently, i.e. doubles it. -/
def escDouble (q : Char) : List Char → List Char
  | [] => []
  | c :: cs => if c = q then q :: q :: escDouble q cs else c :: escDouble q cs

/-- `qb.QName`: quoted CQL name literal — wrap in double quotes, doubling
every embedded double quote. -/
def QName (s : String) : CQL :=
  String.mk ('"' :: (escDouble '"' s.data ++ ['"']))

/-- The database's identifier-unquoting rule on the character list between
the outer quotes: collapse each doubled quote character back to one. -/
def collapseDoubled (q : Char) : List Char → List Char
  | [] => []
  | [c] => [c]
  | c :: d :: cs =>
    if c = q ∧ d = q then q :: collapseDoubled q cs
    else c :: collapseDoubled q (d :: cs)

/-- The hypothetical unescaper of a quoted identifier: strip the outer
double quotes, collapse each doubled double quote. -/
def unescapeIdentifier (s : String) : String :=
  String.mk (collapseDoubled '"' ((s.data.drop 1).dropLast))

end Qb

namespace Provider

open Qb

/-- terraform-plugin-framework `types.String`: a tri-state string value
(null / unknown / known value). -/
structure TFString where
  null : Bool
  unknown : Bool
  value : String
deriving DecidableEq

/-- A known (neither null nor unknown) framework string. -/
def TFString.known (s : String) : TFString := ⟨false, false, s⟩

/-- One attribute error pushed by `diags.AddAttributeError(path, summary,
detail)`. -/
structure Diagnostic where
  path : String
  summary : String
  detail : String
deriving DecidableEq

/-- `strings.ToUpper`, and also `qb.ToUpper`, whose definition is not part
of this source snapshot. Modelled from the spec: the permission is
"normalized to upper-case". Go upper-cases each rune; on the ASCII inputs
used throughout this provider this agrees with `Char.toUpper`. -/
def goToUpper (s : String) : String := String.mk (s.data.map Char.toUpper)

/-- `strings.ToLower`, per rune; agrees with `Char.toLower` on ASCII
inputs. -/
def goToLower (s : String) : String := String.mk (s.data.map Char.toLower)

/-- Character-level prefix test (Go string comparison is by bytes; on
char lists this is the same test). -/
def isPrefixChars : List Char → List Char → Bool
  | [], _ => true
  | _ :: _, [] => false
  | a :: as, b :: bs => if a = b then isPrefixChars as bs else false

/-- Auxiliary recursion for `strings.Contains`: does `sub` occur at some
position of `s`? -/
def containsChars (sub : List Char) : List Char → Bool
  | [] => sub.isEmpty
  | c :: t => if isPrefixChars sub (c :: t) then true else containsChars sub t

/-- `strings.Contains(s, substr)`. -/
def goContains (s substr : String) : Bool := containsChars substr.data s.data

/-- `var permissions` (table_grant_resource.go): the key set of the table
grant permission map, in source declaration order. -/
def permissions : List String :=
  ["CREATE", "ALTER", "DROP", "SELECT", "MODIFY", "AUTHORIZE", "DESCRIBE"]

/-- `var keyspacePermissions` (keyspace_grant_resource.go), in source
declaration order. -/
def keyspacePermissions : List String :=
  ["CREATE", "ALTER", "DROP", "SELECT", "MODIFY", "AUTHORIZE", "DESCRIBE"]

/-- `var tablePermissions` (refactored table grant resource file), in
source declaration order. -/
def tablePermissions : List String :=
  ["CREATE", "ALTER", "DROP", "SELECT", "MODIFY", "AUTHORIZE", "DESCRIBE"]

/-- `sort.Strings(permNames)` applied to the keys of the permission maps
(all three maps hold the same keys, so the sorted name list is shared). -/
def sortedPermNames : List String :=
  ["ALTER", "AUTHORIZE", "CREATE", "DESCRIBE", "DROP", "MODIFY", "SELECT"]

/-- Go's `fmt.Sprintf("%s", names)` rendering of a string slice:
bracketed, space-separated. -/
def permNamesText (names : List String) : String :=
  "[" ++ (String.intercalate " " names ++ "]")

/-- `tableGrantResourceData`: the four typed attributes of a table grant. -/
structure TableGrantResourceData where
  keyspace : TFString
  table : TFString
  grantee : TFString
  permission : TFString
deriving DecidableEq

/-- `tableGrantResourceData.resource()`:
`fmt.Sprintf("%s.%s", qb.QName(ks), qb.QName(tbl))`. -/
def TableGrantResourceData.resource (t : TableGrantResourceData) : CQL :=
  String.mk (sprintfS "%s.%s".data [QName t.keyspace.value, QName t.table.value])

/-- `tableGrantResourceData.listResource()` (refactored file), identical to
the inline `expectedResource` of the standalone `Read`:
`fmt.Sprintf("<table %s.%s>", strings.ToLower(ks), strings.ToLower(tbl))`. -/
def TableGrantResourceData.listResource (t : TableGrantResourceData) : String :=
  String.mk (sprintfS "<table %s.%s>".data
    [goToLower t.keyspace.value, goToLower t.table.value])

/-- `tableGrantResourceData.validate()`: one attribute error per
missing/empty field, plus a vocabulary check on a present permission.
The refactored file is textually identical except that its map is named
`tablePermissions`; the two maps hold the same keys. -/
def TableGrantResourceData.validate (t : TableGrantResourceData) : List Diagnostic :=
  (if t.keyspace.null = true ∨ t.keyspace.unknown = true ∨ t.keyspace.value = "" then
    [⟨"keyspace", "Keyspace missing", "Keyspace of the table must be specified."⟩]
   else []) ++
  (if t.table.null = true ∨ t.table.unknown = true ∨ t.table.value = "" then
    [⟨"table", "Table missing", "Table name must be specified."⟩]
   else []) ++
  (if t.grantee.null = true ∨ t.grantee.unknown = true ∨ t.grantee.value = "" then
    [⟨"grantee", "Grantee missing", "Grantee must be specified."⟩]
   else []) ++
  (if t.permission.null = true ∨ t.permission.unknown = true ∨ t.permission.value = "" then
    [⟨"permission", "Permission missing", "Permission must be specified."⟩]
   else if goToUpper t.permission.value ∈ permissions then []
   else [⟨"permission", "Unsupported permission",
          "Permission must be one of " ++ permNamesText sortedPermNames⟩])

/-- `keyspaceGrantResourceData`: the three typed attributes of a keyspace
grant. -/
structure KeyspaceGrantResourceData where
  keyspace : TFString
  grantee : TFString
  permission : TFString
deriving DecidableEq

/-- `keyspaceGrantResourceData.resource()`:
`fmt.Sprintf("KEYSPACE %s", qb.QName(ks))`. -/
def KeyspaceGrantResourceData.resource (k : KeyspaceGrantResourceData) : CQL :=
  String.mk (sprintfS "KEYSPACE %s".data [QName k.keyspace.value])

/-- `keyspaceGrantResourceData.listResource()`:
`fmt.Sprintf("<keyspace %s>", strings.ToLower(ks))`. -/
def KeyspaceGrantResourceData.listResource (k : KeyspaceGrantResourceData) : String :=
  String.mk (sprintfS "<keyspace %s>".data [goToLower k.keyspace.value])

/-- `keyspaceGrantResourceData.validate()`. -/
def KeyspaceGrantResourceData.validate (k : KeyspaceGrantResourceData) : List Diagnostic :=
  (if k.keyspace.null = true ∨ k.keyspace.unknown = true ∨ k.keyspace.value = "" then
    [⟨"keyspace", "Keyspace missing", "Keyspace of the table must be specified."⟩]
   else []) ++
  (if k.grantee.null = true ∨ k.grantee.unknown = true ∨ k.grantee.value = "" then
    [⟨"grantee", "Grantee missing", "Grantee must be specified."⟩]
   else []) ++
  (if k.permission.null = true ∨ k.permission.unknown = true ∨ k.permission.value = "" then
    [⟨"permission", "Permission missing", "Permission must be specified."⟩]
   else if goToUpper k.permission.value ∈ keyspacePermissions then []
   else [⟨"permission", "Unsupported permission",
          "Permission must be one of " ++ permNamesText sortedPermNames⟩])

/-- The `grantResourceData` interface of provider.go, as the method
results of one data value. -/
structure GrantResourceData where
  resource : CQL
  listResource : String
  permission : CQL
  grantee : String
  validate : List Diagnostic

/-- The `grantResourceData` methods of a `tableGrantResourceData` value
(refactored table grant file): `permission()` returns the raw configured
value, `grantee()` the raw role name. -/
def TableGrantResourceData.asGrantData (t : TableGrantResourceData) : GrantResourceData :=
  ⟨t.resource, t.listResource, t.permission.value, t.grantee.value, t.validate⟩

/-- The `grantResourceData` methods of a `keyspaceGrantResourceData`
value. -/
def KeyspaceGrantResourceData.asGrantData (k : KeyspaceGrantResourceData) : GrantResourceData :=
  ⟨k.resource, k.listResource, k.permission.value, k.grantee.value, k.validate⟩

/-- One result cell as observed through its `AsText()` accessor, which can
fail on a non-text column. -/
abbrev Cell := Except String String

/-- `transport.QueryResult` as consumed by the grant engine: the column
names of `ColSpec` and the rows. -/
structure QueryResult where
  colSpec : List String
  rows : List (List Cell)

/-- The Statement Executor collaborator:
`execute(statementText) -> result | error`. -/
abbrev Executor := String → Except String QueryResult

/-- Auxiliary index-tracking loop of `findColumn`. -/
def findColumnAux (name : String) : List String → Nat → Except String Nat
  | [], _ => .error ("column \"" ++ (name ++ "\" not found in result set"))
  | c :: rest, i => if c = name then .ok i else findColumnAux name rest (i + 1)

/-- `findColumn(name, colSpec)` (provider.go): index of the first column
with the given name, or an error naming the column. -/
def findColumn (name : String) (cols : List String) : Except String Nat :=
  findColumnAux name cols 0

/-- `result.Rows[i][col]` followed by `AsText()`. Indexing out of range is
a Go panic; it is modelled as a text error and is unreachable for results
whose rows match the column specification. -/
def cellText (row : List Cell) (i : Nat) : Except String String :=
  row.getD i (Except.error "index out of range")

/-- The row scan of the grant `Read` loop: reads the three cells of each
row as text (propagating the first cell error) and reports whether some
row matches the grantee, the expected resource text and the expected
permission text exactly. -/
def scanRows (grantee expectedResource expectedPermission : String)
    (iRole iRes iPerm : Nat) : List (List Cell) → Except String Bool
  | [] => .ok false
  | row :: rest => do
    let role ← cellText row iRole
    let resource ← cellText row iRes
    let permission ← cellText row iPerm
    if role = grantee ∧ resource = expectedResource ∧ permission = expectedPermission then
      pure true
    else
      scanRows grantee expectedResource expectedPermission iRole iRes iPerm rest

/-- Outcome of a grant `Read`, as reported back to the lifecycle host. -/
inductive ReadOutcome
  /-- validation diagnostics; the executor is never contacted -/
  | validationError (diags : List Diagnostic)
  /-- `resp.State.RemoveResource`: the grant is reported absent -/
  | stateRemoved
  /-- `resp.Diagnostics.AddError(summary, detail)` -/
  | queryError (summary detail : String)
  /-- a row matched; the state is written back -/
  | found
deriving DecidableEq

/-- Outcome of a grant `Create` or `Delete`. -/
inductive WriteOutcome
  /-- validation diagnostics; the executor is never contacted -/
  | validationError (diags : List Diagnostic)
  /-- `resp.Diagnostics.AddError(summary, detail)` after an executor error -/
  | execError (summary detail : String)
  /-- the statement executed without error -/
  | ok
deriving DecidableEq

/-- The LIST statement built by `readGrant`:
`stmt.Appendf("LIST %s PERMISSION ON %s OF %s", upperPermission,
data.resource(), qb.QName(data.grantee()))`. -/
def listGrantStmt (d : GrantResourceData) : String :=
  (Builder.appendf Builder.empty "LIST %s PERMISSION ON %s OF %s"
    [goToUpper d.permission, d.resource, QName d.grantee]).string

/-- The GRANT statement built by `createGrant`. -/
def grantStmt (d : GrantResourceData) : String :=
  (Builder.appendf Builder.empty "GRANT %s ON %s TO %s"
    [goToUpper d.permission, d.resource, QName d.grantee]).string

/-- The REVOKE statement built by `deleteGrant`. -/
def revokeStmt (d : GrantResourceData) : String :=
  (Builder.appendf Builder.empty "REVOKE %s ON %s FROM %s"
    [goToUpper d.permission, d.resource, QName d.grantee]).string

/-- `provider.readGrant` (provider.go): validate, build the LIST
statement, execute, and interpret the result. An executor error whose text
contains "doesn't exist" removes the resource from state; any other
executor error is a query error carrying the statement text. On success
the role/resource/permission columns are located by name and every row is
scanned; a full three-way match keeps the resource, otherwise it is
removed from state. The second component of the result is the list of
statements sent to the executor. -/
def readGrant (d : GrantResourceData) (exec : Executor) : ReadOutcome × List String :=
  if d.validate ≠ [] then (.validationError d.validate, [])
  else
    let upperPermission := goToUpper d.permission
    let stmt := listGrantStmt d
    match exec stmt with
    | .error e =>
      if goContains e "doesn't exist" then (.stateRemoved, [stmt])
      else (.queryError "Query error"
              ("Unable to read grant:\n" ++ (stmt ++ ("\n" ++ e))), [stmt])
    | .ok result =>
      match findColumn "role" result.colSpec with
      | .error msg => (.queryError "Query error" msg, [stmt])
      | .ok iRole =>
        match findColumn "resource" result.colSpec with
        | .error msg => (.queryError "Query error" msg, [stmt])
        | .ok iRes =>
          match findColumn "permission" result.colSpec with
          | .error msg => (.queryError "Query error" msg, [stmt])
          | .ok iPerm =>
            match scanRows d.grantee d.listResource upperPermission
                iRole iRes iPerm result.rows with
            | .error msg => (.queryError "Query error" msg, [stmt])
            | .ok true => (.found, [stmt])
            | .ok false => (.stateRemoved, [stmt])

/-- `provider.createGrant` (provider.go): validate, build the GRANT
statement, execute; an executor error is reported with the rendered
statement and the underlying message. -/
def createGrant (d : GrantResourceData) (exec : Executor) : WriteOutcome × List String :=
  if d.validate ≠ [] then (.validationError d.validate, [])
  else
    let stmt := grantStmt d
    match exec stmt with
    | .error e => (.execError "error granting" (stmt ++ ("\n\n" ++ e)), [stmt])
    | .ok _ => (.ok, [stmt])

/-- `provider.deleteGrant` (provider.go): validate, build the REVOKE
statement, execute. -/
def deleteGrant (d : GrantResourceData) (exec : Executor) : WriteOutcome × List String :=
  if d.validate ≠ [] then (.validationError d.validate, [])
  else
    let stmt := revokeStmt d
    match exec stmt with
    | .error e => (.execError "Error revoking" (stmt ++ ("\n\n" ++ e)), [stmt])
    | .ok _ => (.ok, [stmt])

/-- `tableGrantResource.Read` of the standalone table grant file
(table_grant_resource.go): same structure as `readGrant`, except that the
row match compares the row's permission text with the raw configured
permission (`permission == data.Permission.Value`, line 237) rather than
with the upper-cased one used in the LIST statement. -/
def tableGrantReadStandalone (t : TableGrantResourceData) (exec : Executor) :
    ReadOutcome × List String :=
  if t.validate ≠ [] then (.validationError t.validate, [])
  else
    let upperPermission := goToUpper t.permission.value
    let stmt := (Builder.appendf Builder.empty "LIST %s PERMISSION ON %s OF %s"
      [upperPermission, t.resource, QName t.grantee.value]).string
    match exec stmt with
    | .error e =>
      if goContains e "doesn't exist" then (.stateRemoved, [stmt])
      else (.queryError "Query error"
              ("Unable to read grant:\n" ++ (stmt ++ ("\n" ++ e))), [stmt])
    | .ok result =>
      match findColumn "role" result.colSpec with
      | .error msg => (.queryError "Query error" msg, [stmt])
      | .ok iRole =>
        match findColumn "resource" result.colSpec with
        | .error msg => (.queryError "Query error" msg, [stmt])
        | .ok iRes =>
          match findColumn "permission" result.colSpec with
          | .error msg => (.queryError "Query error" msg, [stmt])
          | .ok iPerm =>
            match scanRows t.grantee.value t.listResource t.permission.value
                iRole iRes iPerm result.rows with
            | .error msg => (.queryError "Query error" msg, [stmt])
            | .ok true => (.found, [stmt])
            | .ok false => (.stateRemoved, [stmt])

/-- The REVOKE statement of the standalone table grant `Delete`. -/
def tableRevokeStmtStandalone (t : TableGrantResourceData) : String :=
  (Builder.appendf Builder.empty "REVOKE %s ON %s FROM %s"
    [goToUpper t.permission.value, t.resource, QName t.grantee.value]).string

/-- `tableGrantResource.Delete` of the standalone table grant file: it
does not call `validate()`; the only check before building and executing
the REVOKE statement is that the upper-cased permission is a key of the
permission map. -/
def tableGrantDeleteStandalone (t : TableGrantResourceData) (exec : Executor) :
    WriteOutcome × List String :=
  if goToUpper t.permission.value ∈ permissions then
    let stmt := tableRevokeStmtStandalone t
    match exec stmt with
    | .error e => (.execError "Error revoking" (stmt ++ ("\n\n" ++ e)), [stmt])
    | .ok _ => (.ok, [stmt])
  else
    (.validationError
      [⟨"permission", "Unsupported value", "Permission is not one of the supported values."⟩], [])

/-- A table grant state as in the spec's Read example: keyspace "ks",
table "t", grantee "r1", permission "select". -/
def sampleTableData : TableGrantResourceData :=
  ⟨.known "ks", .known "t", .known "r1", .known "select"⟩

/-- A listing result holding the single row
(role "r1", resource "<table ks.t>", permission "SELECT"). -/
def sampleListResult : QueryResult :=
  ⟨["role", "resource", "permission"], [[.ok "r1", .ok "<table ks.t>", .ok "SELECT"]]⟩

/-- A keyspace grant state: keyspace "ks", grantee "r", permission
"SELECT". -/
def sampleKeyspaceData : KeyspaceGrantResourceData :=
  ⟨.known "ks", .known "r", .known "SELECT"⟩

/-- A table grant request with every field known but empty. -/
def emptyTableData : TableGrantResourceData :=
  ⟨.known "", .known "", .known "", .known ""⟩

/-- An executor that accepts every statement and returns an empty
result. -/
def okExec : Executor := fun _ => .ok ⟨[], []⟩

end Provider

open Qb Provider

theorem escDouble_eq_nil_iff (q : Char) (l : List Char) :
    escDouble q l = [] ↔ l = [] := by
  cases l with
  | nil => simp [escDouble]
  | cons c cs =>
    simp only [escDouble]
    split <;> simp

theorem collapse_escDouble (q : Char) (l : List Char) :
    collapseDoubled q (escDouble q l) = l := by
  induction l with
  | nil => rfl
  | cons c cs ih =>
    by_cases hc : c = q
    · subst hc
      simp only [escDouble, if_pos rfl, collapseDoubled, and_self, if_pos]
      exact congrArg (c :: ·) ih
    · rcases hX : escDouble q cs with _ | ⟨d, rest⟩
      · have hcs : cs = [] := (escDouble_eq_nil_iff q cs).mp hX
        subst hcs
        simp [escDouble, hc, collapseDoubled]
      · rw [hX] at ih
        simp only [escDouble, if_neg hc, hX, collapseDoubled]
        rw [if_neg (by intro h; exact hc h.1)]
        exact congrArg (c :: ·) ih

/-- C1: at the claim's own example — a listing result whose single row is
(role "r1", resource "<table ks.t>", permission "SELECT"), read for the
table grant (keyspace "ks", table "t", grantee "r1", permission "select")
— the standalone table-grant Read removes the resource from state instead
of reporting it found, because its row match compares the row's permission
text against the raw configured permission rather than the upper-cased
form; the shared readGrant, which does compare against the upper-cased
permission, reports the grant found, and reports it absent for grantee
"r2". -/
theorem tableGrantRead_comparesRawPermission :
    (tableGrantReadStandalone sampleTableData (fun _ => .ok sampleListResult)).1
      = .stateRemoved ∧
    (readGrant sampleTableData.asGrantData (fun _ => .ok sampleListResult)).1
      = .found ∧
    (readGrant { sampleTableData with grantee := .known "r2" }.asGrantData
        (fun _ => .ok sampleListResult)).1
      = .stateRemoved :=
  ⟨rfl, rfl, rfl⟩

/-- C2: for every grant data value that passes validation, an executor
error whose text contains "doesn't exist" makes Read (both the shared
readGrant and the standalone table Read) remove the resource from state
with no error, while any other executor error produces a query error whose
message carries the rendered LIST statement text. -/
theorem readGrant_executorError_paths
    (d : GrantResourceData) (t : TableGrantResourceData) (e : String)
    (hd : d.validate = []) (ht : t.validate = []) :
    (goContains e "doesn't exist" = true →
      readGrant d (fun _ => .error e) = (.stateRemoved, [listGrantStmt d]) ∧
      tableGrantReadStandalone t (fun _ => .error e)
        = (.stateRemoved, [listGrantStmt t.asGrantData])) ∧
    (goContains e "doesn't exist" = false →
      readGrant d (fun _ => .error e)
        = (.queryError "Query error"
            ("Unable to read grant:\n" ++ (listGrantStmt d ++ ("\n" ++ e))),
           [listGrantStmt d]) ∧
      tableGrantReadStandalone t (fun _ => .error e)
        = (.queryError "Query error"
            ("Unable to read grant:\n" ++ (listGrantStmt t.asGrantData ++ ("\n" ++ e))),
           [listGrantStmt t.asGrantData])) := by
  constructor
  · intro h
    constructor
    · simp [readGrant, hd, h]
    · simp [tableGrantReadStandalone, ht, h, listGrantStmt,
        TableGrantResourceData.asGrantData]
  · intro h
    constructor
    · simp [readGrant, hd, h]
    · simp [tableGrantReadStandalone, ht, h, listGrantStmt,
        TableGrantResourceData.asGrantData]

theorem readGrant_executorError_paths_witness :
    (readGrant sampleKeyspaceData.asGrantData (fun _ => .error "role r doesn't exist")
      = (.stateRemoved, [listGrantStmt sampleKeyspaceData.asGrantData])) ∧
    (readGrant sampleKeyspaceData.asGrantData (fun _ => .error "connection refused")
      = (.queryError "Query error"
          ("Unable to read grant:\n"
            ++ (listGrantStmt sampleKeyspaceData.asGrantData ++ ("\n" ++ "connection refused"))),
         [listGrantStmt sampleKeyspaceData.asGrantData])) :=
  ⟨((readGrant_executorError_paths sampleKeyspaceData.asGrantData sampleTableData
      "role r doesn't exist" rfl rfl).1 (by decide)).1,
   ((readGrant_executorError_paths sampleKeyspaceData.asGrantData sampleTableData
      "connection refused" rfl rfl).2 (by decide)).1⟩

/-- C3 counterexample: the table and keyspace permission vocabularies are
not distinct — no permission belongs to one and not the other, refuting
the claimed existence of a vocabulary difference. -/
theorem grantVocabularies_notDistinct :
    ¬ ∃ p : String,
      (p ∈ permissions ∧ p ∉ keyspacePermissions) ∨
      (p ∈ keyspacePermissions ∧ p ∉ permissions) := by
  rintro ⟨p, h | h⟩
  · exact h.2 (by rw [show keyspacePermissions = permissions from rfl]; exact h.1)
  · exact h.2 (by rw [show permissions = keyspacePermissions from rfl]; exact h.1)

/-- C3 amended: the legal permission sets of the keyspace variant and of
the table variant (both the standalone map and the refactored one) are
identical. -/
theorem grantVocabularies_equal :
    keyspacePermissions = permissions ∧ tablePermissions = permissions :=
  ⟨rfl, rfl⟩

/-- C4: a table-grant request whose four fields are all empty (or all
null) validates to exactly four diagnostics, one per missing field, in
attribute order; and whenever validation fails, Create and Read (shared
engine and standalone table Read) report the validation diagnostics
without sending any statement to the executor. -/
theorem validate_collectsAll_and_gatesExecutor :
    (TableGrantResourceData.validate emptyTableData
      = [⟨"keyspace", "Keyspace missing", "Keyspace of the table must be specified."⟩,
         ⟨"table", "Table missing", "Table name must be specified."⟩,
         ⟨"grantee", "Grantee missing", "Grantee must be specified."⟩,
         ⟨"permission", "Permission missing", "Permission must be specified."⟩]) ∧
    (TableGrantResourceData.validate
        ⟨⟨true, false, "x"⟩, ⟨true, false, "x"⟩, ⟨true, false, "x"⟩, ⟨true, false, "x"⟩⟩
      = [⟨"keyspace", "Keyspace missing", "Keyspace of the table must be specified."⟩,
         ⟨"table", "Table missing", "Table name must be specified."⟩,
         ⟨"grantee", "Grantee missing", "Grantee must be specified."⟩,
         ⟨"permission", "Permission missing", "Permission must be specified."⟩]) ∧
    (∀ (d : GrantResourceData) (ex : Executor), d.validate ≠ [] →
      createGrant d ex = (.validationError d.validate, []) ∧
      readGrant d ex = (.validationError d.validate, [])) ∧
    (∀ (t : TableGrantResourceData) (ex : Executor), t.validate ≠ [] →
      tableGrantReadStandalone t ex = (.validationError t.validate, [])) := by
  refine ⟨rfl, rfl, ?_, ?_⟩
  · intro d ex h
    constructor
    · simp only [createGrant]; rw [if_pos h]
    · simp only [readGrant]; rw [if_pos h]
  · intro t ex h
    simp only [tableGrantReadStandalone]; rw [if_pos h]

theorem validate_collectsAll_and_gatesExecutor_witness :
    createGrant emptyTableData.asGrantData okExec
      = (.validationError emptyTableData.asGrantData.validate, []) ∧
    readGrant emptyTableData.asGrantData okExec
      = (.validationError emptyTableData.asGrantData.validate, []) ∧
    tableGrantReadStandalone emptyTableData okExec
      = (.validationError emptyTableData.validate, []) :=
  ⟨(validate_collectsAll_and_gatesExecutor.2.2.1 emptyTableData.asGrantData okExec
      (by decide)).1,
   (validate_collectsAll_and_gatesExecutor.2.2.1 emptyTableData.asGrantData okExec
      (by decide)).2,
   validate_collectsAll_and_gatesExecutor.2.2.2 emptyTableData okExec (by decide)⟩

/-- C5: for every builder and label, the first Once call for that label
appends the first text and records the label, and every Once call with an
already-seen label appends the alternative text and leaves the label set
unchanged; consequently three Once calls with one label produce "WAA" and
one call each with three distinct labels produces "WWW". -/
theorem builder_once_firstThenSubsequent :
    (∀ (b : Builder) (key : String) (text alt : CQL),
      (key ∉ b.onceMap →
        (b.once key text alt).stmt = b.stmt ++ text ∧
        (b.once key text alt).onceMap = key :: b.onceMap) ∧
      (key ∈ b.onceMap →
        (b.once key text alt).stmt = b.stmt ++ alt ∧
        (b.once key text alt).onceMap = b.onceMap)) ∧
    (∀ key : String,
      (((Builder.empty.once key "W" "A").once key "W" "A").once key "W" "A").string
        = "WAA") ∧
    (∀ k1 k2 k3 : String, k1 ≠ k2 → k1 ≠ k3 → k2 ≠ k3 →
      (((Builder.empty.once k1 "W" "A").once k2 "W" "A").once k3 "W" "A").string
        = "WWW") := by
  refine ⟨?_, ?_, ?_⟩
  · intro b key text alt
    constructor
    · intro h
      simp [Builder.once, h, Builder.append]
    · intro h
      simp [Builder.once, h, Builder.append]
  · intro key
    simp [Builder.once, Builder.append, Builder.empty, Builder.string]
  · intro k1 k2 k3 h12 h13 h23
    simp [Builder.once, Builder.append, Builder.empty, Builder.string,
      Ne.symm h12, Ne.symm h13, Ne.symm h23]

theorem builder_once_firstThenSubsequent_witness :
    ((Builder.empty.once "k" "W" "A").stmt = Builder.empty.stmt ++ "W" ∧
      (Builder.empty.once "k" "W" "A").onceMap = "k" :: Builder.empty.onceMap) ∧
    ((((Builder.empty.once "a" "W" "A").once "b" "W" "A").once "c" "W" "A").string
      = "WWW") :=
  ⟨(builder_once_firstThenSubsequent.1 Builder.empty "k" "W" "A").1 (by simp [Builder.empty]),
   builder_once_firstThenSubsequent.2.2 "a" "b" "c" (by decide) (by decide) (by decide)⟩

/-- C6: QName wraps its argument in double quotes doubling every embedded
double quote, and the inverse transformation — strip the outer double
quotes, collapse each doubled double quote — recovers the original string,
for every string including ones containing double quotes. -/
theorem qname_escape_roundTrip (s : String) :
    QName s = String.mk ('"' :: (escDouble '"' s.data ++ ['"'])) ∧
    unescapeIdentifier (QName s) = s := by
  refine ⟨rfl, ?_⟩
  unfold unescapeIdentifier QName
  simp only [List.drop_succ_cons, List.drop_zero]
  rw [List.dropLast_concat]
  rw [collapse_escDouble]

/-- C7: validation accepts a permission exactly when its upper-cased form
is in the variant's vocabulary, so "select", "SELECT" and "SeLeCt" all
pass for the table variant while "FLY" fails for both variants. -/
theorem validate_permission_caseInsensitive :
    (∀ p : String,
      TableGrantResourceData.validate ⟨.known "ks", .known "t", .known "r", .known p⟩ = []
        ↔ goToUpper p ∈ permissions) ∧
    (∀ p : String,
      KeyspaceGrantResourceData.validate ⟨.known "ks", .known "r", .known p⟩ = []
        ↔ goToUpper p ∈ keyspacePermissions) ∧
    (TableGrantResourceData.validate
      ⟨.known "ks", .known "t", .known "r", .known "select"⟩ = []) ∧
    (TableGrantResourceData.validate
      ⟨.known "ks", .known "t", .known "r", .known "SELECT"⟩ = []) ∧
    (TableGrantResourceData.validate
      ⟨.known "ks", .known "t", .known "r", .known "SeLeCt"⟩ = []) ∧
    (TableGrantResourceData.validate
      ⟨.known "ks", .known "t", .known "r", .known "FLY"⟩ ≠ []) ∧
    (KeyspaceGrantResourceData.validate
      ⟨.known "ks", .known "r", .known "FLY"⟩ ≠ []) := by
  refine ⟨?_, ?_, by decide, by decide, by decide, by decide, by decide⟩
  · intro p
    by_cases hp : p = ""
    · subst hp; decide
    · simp only [TableGrantResourceData.validate, TFString.known]
      by_cases hm : goToUpper p ∈ permissions
      · simp [hp, hm]
      · simp [hp, hm]
  · intro p
    by_cases hp : p = ""
    · subst hp; decide
    · simp only [KeyspaceGrantResourceData.validate, TFString.known]
      by_cases hm : goToUpper p ∈ keyspacePermissions
      · simp [hp, hm]
      · simp [hp, hm]

/-- C8: for grant data that passes validation, Create sends exactly the
statement GRANT PERM ON object TO grantee — upper-cased permission, the
resource's statement fragment (KEYSPACE quoted-name for the keyspace
variant, quoted-keyspace.quoted-table for the table variant), quoted
grantee — and an executor error is reported with the rendered statement
text followed by the underlying error message. -/
theorem createGrant_buildsStatement
    (d : GrantResourceData) (ex : Executor) (e : String)
    (hv : d.validate = []) :
    grantStmt d
      = "GRANT " ++ (goToUpper d.permission
          ++ (" ON " ++ (d.resource ++ (" TO " ++ QName d.grantee)))) ∧
    (createGrant d ex).2 = [grantStmt d] ∧
    createGrant d (fun _ => .error e)
      = (.execError "error granting" (grantStmt d ++ ("\n\n" ++ e)), [grantStmt d]) ∧
    (∀ ks g p : TFString,
      (KeyspaceGrantResourceData.asGrantData ⟨ks, g, p⟩).resource
        = "KEYSPACE " ++ QName ks.value) ∧
    (∀ ks tb g p : TFString,
      (TableGrantResourceData.asGrantData ⟨ks, tb, g, p⟩).resource
        = QName ks.value ++ ("." ++ QName tb.value)) := by
  refine ⟨rfl, ?_, ?_, fun ks g p => rfl, fun ks tb g p => rfl⟩
  · cases h : ex (grantStmt d) <;> simp [createGrant, hv, h]
  · simp [createGrant, hv]

theorem createGrant_buildsStatement_witness :
    grantStmt sampleKeyspaceData.asGrantData
      = "GRANT " ++ (goToUpper sampleKeyspaceData.asGrantData.permission
          ++ (" ON " ++ (sampleKeyspaceData.asGrantData.resource
            ++ (" TO " ++ QName sampleKeyspaceData.asGrantData.grantee)))) ∧
    createGrant sampleKeyspaceData.asGrantData (fun _ => .error "boom")
      = (.execError "error granting"
          (grantStmt sampleKeyspaceData.asGrantData ++ ("\n\n" ++ "boom")),
         [grantStmt sampleKeyspaceData.asGrantData]) :=
  ⟨(createGrant_buildsStatement sampleKeyspaceData.asGrantData okExec "boom" rfl).1,
   (createGrant_buildsStatement sampleKeyspaceData.asGrantData okExec "boom" rfl).2.2.1⟩

/-- C9: the listing identity lowercases every name component regardless of
input case: the keyspace variant reports "<keyspace " ++ lowercased name
++ ">", and the table variant for keyspace "KS", table "Tbl" reports
exactly "<table ks.tbl>". -/
theorem listingIdentity_lowercased :
    (∀ k : KeyspaceGrantResourceData,
      k.listResource = "<keyspace " ++ (goToLower k.keyspace.value ++ ">")) ∧
    (∀ t : TableGrantResourceData,
      t.listResource
        = "<table " ++ (goToLower t.keyspace.value
            ++ ("." ++ (goToLower t.table.value ++ ">")))) ∧
    (TableGrantResourceData.listResource
      ⟨.known "KS", .known "Tbl", .known "r", .known "SELECT"⟩ = "<table ks.tbl>") ∧
    (KeyspaceGrantResourceData.listResource
      ⟨.known "KS", .known "r", .known "SELECT"⟩ = "<keyspace ks>") :=
  ⟨fun _ => rfl, fun _ => rfl, rfl, rfl⟩

/-- C10: the standalone table-grant Delete checks only that the
upper-cased permission is in the vocabulary; for any keyspace, table and
grantee values — empty ones included — it reports no validation error and
sends the REVOKE statement, built from upper-cased permission, quoted
keyspace.table fragment and quoted grantee, to the executor. -/
theorem tableDelete_validatesOnlyPermission
    (ks tb g p : TFString) (ex : Executor)
    (hp : goToUpper p.value ∈ permissions) :
    (tableGrantDeleteStandalone ⟨ks, tb, g, p⟩ ex).2
      = [tableRevokeStmtStandalone ⟨ks, tb, g, p⟩] ∧
    (∀ diags, (tableGrantDeleteStandalone ⟨ks, tb, g, p⟩ ex).1
      ≠ .validationError diags) ∧
    tableRevokeStmtStandalone ⟨ks, tb, g, p⟩
      = "REVOKE " ++ (goToUpper p.value
          ++ (" ON " ++ ((QName ks.value ++ ("." ++ QName tb.value))
            ++ (" FROM " ++ QName g.value)))) := by
  refine ⟨?_, ?_, rfl⟩
  · cases h : ex (tableRevokeStmtStandalone ⟨ks, tb, g, p⟩) <;>
      simp [tableGrantDeleteStandalone, hp, h]
  · intro diags
    cases h : ex (tableRevokeStmtStandalone ⟨ks, tb, g, p⟩) <;>
      simp [tableGrantDeleteStandalone, hp, h]

theorem tableDelete_validatesOnlyPermission_witness :
    (tableGrantDeleteStandalone ⟨.known "", .known "", .known "", .known "select"⟩ okExec).2
      = [tableRevokeStmtStandalone ⟨.known "", .known "", .known "", .known "select"⟩] ∧
    tableRevokeStmtStandalone ⟨.known "", .known "", .known "", .known "select"⟩
      = "REVOKE " ++ (goToUpper "select"
          ++ (" ON " ++ ((QName "" ++ ("." ++ QName ""))
            ++ (" FROM " ++ QName "")))) :=
  ⟨(tableDelete_validatesOnlyPermission (.known "") (.known "") (.known "")
      (.known "select") okExec (by decide)).1,
   (tableDelete_validatesOnlyPermission (.known "") (.known "") (.known "")
      (.known "select") okExec (by decide)).2.2⟩
